import Mathlib

/-!
Verification of the type-descriptor layer of `beets.dbcore.types`.

The Python module defines an abstract `Type` contract and seven concrete
variants (Integer, PaddedInt, ScaledInt, Id, Float, String, Boolean), each
with a `format : value → string` and a `parse : string → value` method.
This file shallowly embeds those methods as executable Lean functions and
proves the specified properties about them.

Modelling conventions:

* Python `int` is `Int` (Python integers are arbitrary precision, so no
  overflow modelling is needed; `int(string)` never overflows).
* Python `float` is modelled as an exact rational `ℚ`.  The claims under
  verification only exercise finite decimal literals and parse failures,
  where the rational model agrees with IEEE semantics; the non-finite
  values `inf`/`nan` are outside the model and noted where relevant.
* A possibly-absent value (`None` or a value of the variant's type) is an
  `Option`; Python truthiness (`value or 0`) is made explicit per type.
* A Python exception is an explicit `PyErr` value: the fallible primitives
  (`int(...)`, `float(...)`, `... // ...`) return `Except PyErr`, and each
  method's exception-level semantics (`parseE`, `formatE`) is the direct
  translation of its body, with `try/except ValueError` translated to a
  handler that catches exactly `valueError` and re-raises anything else.
* The `sql` / `query` constructor attributes (storage kind, matcher kind)
  are plain construction-time data never read by `format`/`parse`; they
  are not modelled because no property under verification mentions them.
-/

namespace DbTypes

/-- The decimal digit character for a digit value `0 ≤ k ≤ 9` (the final
catch-all arm is the digit 9; the function is only applied to `k < 10`). -/
def digitChar : Nat → Char
  | 0 => '0' | 1 => '1' | 2 => '2' | 3 => '3' | 4 => '4'
  | 5 => '5' | 6 => '6' | 7 => '7' | 8 => '8' | _ => '9'

/-- Numeric value of a decimal digit character. -/
def digitVal (c : Char) : Nat := c.toNat - 48

/-- The characters Python's `str.strip`-style whitespace handling removes
around numeric literals: space, tab, newline, carriage return, vertical
tab, form feed. -/
def isPySpace (c : Char) : Bool :=
  c = ' ' || c = '\t' || c = '\n' || c = '\r' || c = '\x0b' || c = '\x0c'

/-- Strip leading and trailing whitespace, as Python's `int`/`float`
string conversions do before parsing the literal. -/
def pyStrip (l : List Char) : List Char :=
  ((l.dropWhile isPySpace).reverse.dropWhile isPySpace).reverse

/-- Value of a list of decimal digit characters, most significant first. -/
def digitsVal (l : List Char) : Nat :=
  l.foldl (fun a c => 10 * a + digitVal c) 0

/-- Decimal digit characters of a natural number, most significant first,
driven by a fuel argument that keeps the recursion structural; any fuel
greater than `n` yields the full rendering. -/
def natDecAux : Nat → Nat → List Char
  | 0, _ => []
  | fuel + 1, n =>
    if n < 10 then [digitChar n]
    else natDecAux fuel (n / 10) ++ [digitChar (n % 10)]

/-- Decimal digit characters of a natural number, most significant first
(the rendering used by Python's `unicode(...)`/`str(...)` on integers). -/
def natDec' (n : Nat) : List Char := natDecAux (n + 1) n

/-- Decimal rendering of an integer, sign first: Python's `unicode(z)` for
an `int` argument. -/
def intDecL (z : Int) : List Char :=
  if z < 0 then '-' :: natDec' z.natAbs else natDec' z.natAbs

/-- Decimal digit test (code points 48–57, i.e. `'0'`–`'9'`). -/
def isDig (c : Char) : Bool := 48 ≤ c.toNat && c.toNat ≤ 57

/-- The digits-only part of an integer literal: Python's `int(string)`
requires, after the optional sign, one or more decimal digits and nothing
else.  (Python 2 additionally accepts non-ASCII unicode digits in unicode
strings; that exotic case is outside this model.) -/
def natPart (l : List Char) : Option Nat :=
  if l = [] then none
  else if l.all isDig then some (digitsVal l) else none

/-- The decimal integer literal accepted by Python's `int(string)`:
optional surrounding whitespace, an optional `+`/`-` sign, then one or
more decimal digits.  `none` means `int(string)` raises `ValueError`. -/
def intLit? (s : String) : Option Int :=
  match pyStrip s.toList with
  | [] => none
  | c :: rest =>
    if c = '+' then (natPart rest).map Int.ofNat
    else if c = '-' then (natPart rest).map (fun n => -Int.ofNat n)
    else (natPart (c :: rest)).map Int.ofNat

/-- A Python exception value, as raised by the primitives this module
uses: `ValueError` from `int(...)`/`float(...)` on a malformed literal,
`ZeroDivisionError` from `//` with zero divisor. -/
inductive PyErr where
  | valueError
  | zeroDivisionError
deriving DecidableEq

/-- Exception-level semantics of the primitive `int(string)`: the parsed
value, or `ValueError` on a malformed literal (the only exception this
primitive raises on a string argument). -/
def pyIntE (s : String) : Except PyErr Int :=
  match intLit? s with
  | some n => Except.ok n
  | none => Except.error PyErr.valueError

/-- Python truthiness of `value` for a possibly-absent integer: `None`
and `0` are falsy, so `value or 0` yields `0` for them and `value`
otherwise. -/
def pyOrInt : Option Int → Int
  | Option.none => 0
  | some z => if z = 0 then 0 else z

/-- `Integer.format`: `unicode(value or 0)`. -/
def Integer.format (value : Option Int) : String :=
  String.mk (intDecL (pyOrInt value))

/-- `Integer.parse`: `try: return int(string) except ValueError: return 0`.
The `none` branch of `intLit?` is exactly the `ValueError` case. -/
def Integer.parse (string : String) : Int :=
  match intLit? string with
  | some n => n
  | Option.none => 0

/-- Exception-level semantics of `Integer.parse`: run `int(string)`,
catch exactly `ValueError` (returning `0`), re-raise anything else. -/
def Integer.parseE (string : String) : Except PyErr Int :=
  match pyIntE string with
  | Except.ok n => Except.ok n
  | Except.error PyErr.valueError => Except.ok 0
  | Except.error e => Except.error e

/-- Zero padding, translating the Python format spec `{0:0{1}d}`: the
minimum field width is the second argument, and the `'0'` fill goes
between the sign and the digits. -/
def zeroPad (width : Nat) (z : Int) : List Char :=
  let sign := if z < 0 then ['-'] else []
  let ds := natDec' z.natAbs
  sign ++ List.replicate (width - (sign.length + ds.length)) '0' ++ ds

/-- `PaddedInt.format`: `u'{0:0{1}d}'.format(value or 0, self.digits)`. -/
def PaddedInt.format (digits : Nat) (value : Option Int) : String :=
  String.mk (zeroPad digits (pyOrInt value))

/-- `PaddedInt.parse`: inherited unchanged from `Integer`. -/
def PaddedInt.parse : String → Int := Integer.parse

/-- Exception-level semantics of `PaddedInt.parse` (inherited). -/
def PaddedInt.parseE : String → Except PyErr Int := Integer.parseE

/-- Floor-division primitive `a // b` with its exception: Python raises
`ZeroDivisionError` when the divisor is zero, and otherwise floors
(`Int.fdiv`). -/
def intFloorDivE (a b : Int) : Except PyErr Int :=
  if b = 0 then Except.error PyErr.zeroDivisionError else Except.ok (Int.fdiv a b)

/-- `ScaledInt.format`:
`u'{0}{1}'.format((value or 0) // self.unit, self.suffix)`; Python `//`
on integers is floor division, `Int.fdiv`. -/
def ScaledInt.format (unit : Int) (sfx : String) (value : Option Int) : String :=
  String.mk (intDecL (Int.fdiv (pyOrInt value) unit)) ++ sfx

/-- Exception-level semantics of `ScaledInt.format`: the body has no
`try/except`, so a `ZeroDivisionError` from `//` would propagate; the
spec requires `unit > 0` at construction, which rules it out. -/
def ScaledInt.formatE (unit : Int) (sfx : String) (value : Option Int) :
    Except PyErr String :=
  match intFloorDivE (pyOrInt value) unit with
  | Except.ok q => Except.ok (String.mk (intDecL q) ++ sfx)
  | Except.error e => Except.error e

/-- `ScaledInt.parse`: inherited unchanged from `Integer` (scaling applies
only to display). -/
def ScaledInt.parse : String → Int := Integer.parse

/-- Exception-level semantics of `ScaledInt.parse` (inherited). -/
def ScaledInt.parseE : String → Except PyErr Int := Integer.parseE

/-- `Id.format`: inherited unchanged from `Integer` (the `Id` variant only
changes the SQL column declaration to a primary key). -/
def Id.format : Option Int → String := Integer.format

/-- `Id.parse`: inherited unchanged from `Integer`. -/
def Id.parse : String → Int := Integer.parse

/-- Exception-level semantics of `Id.parse` (inherited). -/
def Id.parseE : String → Except PyErr Int := Integer.parseE

/-- Python truthiness of `value` for a possibly-absent float: `None` and
`0.0` are falsy, so `value or 0.0` yields `0.0` for them. -/
def pyOrFloat : Option ℚ → ℚ
  | Option.none => 0
  | some q => if q = 0 then 0 else q

/-- Round to the nearest integer, ties to even: the rounding used by
Python's fixed-point string formatting. -/
def roundHalfEven (x : ℚ) : Int :=
  let f := ⌊x⌋
  let r := x - (f : ℚ)
  if r < 1 / 2 then f
  else if 1 / 2 < r then f + 1
  else if f % 2 = 0 then f else f + 1

/-- Fixed-point rendering with one fractional digit, Python's `{0:.1f}`:
sign when the value is negative, magnitude rounded half-to-even at one
decimal place. -/
def fix1 (q : ℚ) : List Char :=
  let m := (roundHalfEven (|q| * 10)).toNat
  (if q < 0 then ['-'] else []) ++ natDec' (m / 10) ++ ['.'] ++ natDec' (m % 10)

/-- `Float.format`: `u'{0:.1f}'.format(value or 0.0)`. -/
def Float.format (value : Option ℚ) : String :=
  String.mk (fix1 (pyOrFloat value))

/-- The finite decimal literal accepted by Python's `float(string)`:
optional surrounding whitespace, an optional sign, digits with an
optional decimal point (at least one digit overall), and an optional
exponent part.  `none` means `float(string)` raises `ValueError`.  (The
special words `inf`/`infinity`/`nan` denote non-finite IEEE values that
the exact-rational model cannot carry; no property under verification
exercises them.) -/
def floatLit? (s : String) : Option ℚ :=
  let l := pyStrip s.toList
  let sl :=
    match l with
    | '+' :: r => ((1 : ℚ), r)
    | '-' :: r => ((-1 : ℚ), r)
    | r => ((1 : ℚ), r)
  let ip := sl.2.takeWhile isDig
  let l2 := sl.2.dropWhile isDig
  let fl :=
    match l2 with
    | '.' :: r => (r.takeWhile isDig, r.dropWhile isDig)
    | r => (([] : List Char), r)
  if ip = [] ∧ fl.1 = [] then none
  else
    let mant : ℚ := sl.1 * ((digitsVal ip : ℚ) + (digitsVal fl.1 : ℚ) / (10 : ℚ) ^ fl.1.length)
    match fl.2 with
    | [] => some mant
    | e :: r =>
      if e = 'e' ∨ e = 'E' then
        let el :=
          match r with
          | '+' :: r2 => ((1 : Int), r2)
          | '-' :: r2 => ((-1 : Int), r2)
          | r2 => ((1 : Int), r2)
        if el.2 ≠ [] ∧ el.2.all isDig then
          some (mant * (10 : ℚ) ^ (el.1 * (digitsVal el.2 : Int)))
        else none
      else none

/-- Exception-level semantics of the primitive `float(string)`. -/
def pyFloatE (s : String) : Except PyErr ℚ :=
  match floatLit? s with
  | some q => Except.ok q
  | none => Except.error PyErr.valueError

/-- `Float.parse`: `try: return float(string) except ValueError: return 0.0`. -/
def Float.parse (string : String) : ℚ :=
  match floatLit? string with
  | some q => q
  | Option.none => 0

/-- Exception-level semantics of `Float.parse`: run `float(string)`,
catch exactly `ValueError` (returning `0.0`), re-raise anything else. -/
def Float.parseE (string : String) : Except PyErr ℚ :=
  match pyFloatE string with
  | Except.ok q => Except.ok q
  | Except.error PyErr.valueError => Except.ok 0
  | Except.error e => Except.error e

/-- A dynamically typed Python value as stored in a model field: absent
(`None`), an integer, a float, a text string, or a boolean. -/
inductive PyVal where
  | none
  | int (z : Int)
  | float (q : ℚ)
  | str (s : String)
  | bool (b : Bool)
deriving DecidableEq

/-- Python truthiness: `None`, `0`, `0.0`, the empty string and `False`
are falsy; everything else is truthy. -/
def PyVal.truthy : PyVal → Bool
  | PyVal.none => false
  | PyVal.int z => if z = 0 then false else true
  | PyVal.float q => if q = 0 then false else true
  | PyVal.str s => if s = "" then false else true
  | PyVal.bool b => b

/-- Modelled rendering of a float value as text (`unicode(x)` for a float
`x`): Python prints the shortest decimal rendering of the IEEE double; in
the exact-rational model we print the decimal expansion truncated at 17
fractional digits with trailing zeros removed (keeping at least one
fractional digit).  No property under verification evaluates this
rendering: it is only reachable through `String.format` on a truthy
float. -/
def floatRepr (q : ℚ) : String :=
  let i := (⌊|q|⌋).toNat
  let fr := (⌊(|q| - (⌊|q|⌋ : ℚ)) * (10 : ℚ) ^ (17 : Nat)⌋).toNat
  let ds := natDec' fr
  let ds17 := List.replicate (17 - ds.length) '0' ++ ds
  let ds' := (ds17.reverse.dropWhile (fun c => c = '0')).reverse
  String.mk ((if q < 0 then ['-'] else []) ++ natDec' i ++ ['.'] ++
    (if ds' = [] then ['0'] else ds'))

/-- Python's `unicode(value)` on a dynamically typed value. -/
def pyUnicode : PyVal → String
  | PyVal.none => "None"
  | PyVal.int z => String.mk (intDecL z)
  | PyVal.float q => floatRepr q
  | PyVal.str s => s
  | PyVal.bool b => if b then "True" else "False"

/-- `String.format`: `unicode(value) if value else u''` — truthiness
decides between the textual form and the empty string. -/
def String.format (value : PyVal) : String :=
  if value.truthy then pyUnicode value else ""

/-- `String.parse`: `return string` — the identity. -/
def String.parse (string : String) : String := string

/-- `Boolean.format`: `unicode(bool(value))` — `bool(...)` is Python
truthiness, and the boolean renders as the literal text `True`/`False`. -/
def Boolean.format (value : PyVal) : String :=
  if value.truthy then "True" else "False"

/-- ASCII lowercasing of a character (Python's `str.lower` on the ASCII
range). -/
def pyLowerChar (c : Char) : Char :=
  if 65 ≤ c.toNat ∧ c.toNat ≤ 90 then Char.ofNat (c.toNat + 32) else c

/-- ASCII lowercasing of a string, Python's `value.lower()` restricted to
the ASCII range. -/
def pyLower (s : String) : String := String.mk (s.toList.map pyLowerChar)

/-- Modelled from the spec: `beets.util.str2bool`, the external
human-text boolean parser that `Boolean.parse` delegates to, is not part
of this source fragment.  The spec treats it as an opaque total
capability `parse_boolean_text(string) -> bool` accepting forms such as
"true"/"false"/"yes"/"no"/"1"/"0"; it is modelled as a total,
case-insensitive membership test for the truthy forms. -/
def str2bool (value : String) : Bool :=
  (["yes", "1", "true", "t", "y"] : List String).contains (pyLower value)

/-- `Boolean.parse`: delegate to the external boolean text parser. -/
def Boolean.parse (string : String) : Bool := str2bool string

theorem digitVal_digitChar {k : Nat} (h : k < 10) : digitVal (digitChar k) = k := by
  interval_cases k <;> rfl

theorem isDig_digitChar {k : Nat} (h : k < 10) : isDig (digitChar k) = true := by
  interval_cases k <;> decide

theorem digitsVal_append_singleton (l : List Char) (c : Char) :
    digitsVal (l ++ [c]) = 10 * digitsVal l + digitVal c := by
  simp [digitsVal, List.foldl_append]

theorem natDecAux_spec : ∀ (fuel n : Nat), n < fuel →
    digitsVal (natDecAux fuel n) = n
    ∧ (∀ c ∈ natDecAux fuel n, isDig c = true)
    ∧ natDecAux fuel n ≠ []
  | 0, _, h => absurd h (by omega)
  | fuel + 1, n, hlt => by
    by_cases h10 : n < 10
    · refine ⟨?_, ?_, ?_⟩ <;>
        simp [natDecAux, h10, digitsVal, digitVal_digitChar h10, isDig_digitChar h10]
    · have hf : n / 10 < fuel := by
        have hd := Nat.div_lt_self (show 0 < n by omega) (show 1 < 10 by omega)
        omega
      obtain ⟨ih1, ih2, ih3⟩ := natDecAux_spec fuel (n / 10) hf
      have hm : n % 10 < 10 := Nat.mod_lt _ (by omega)
      refine ⟨?_, ?_, ?_⟩
      · rw [natDecAux, if_neg h10, digitsVal_append_singleton, ih1, digitVal_digitChar hm]
        omega
      · intro c hc
        rw [natDecAux, if_neg h10] at hc
        rcases List.mem_append.mp hc with h | h
        · exact ih2 c h
        · rcases List.mem_singleton.mp h with rfl
          exact isDig_digitChar hm
      · rw [natDecAux, if_neg h10]
        simp

theorem digitsVal_natDec' (n : Nat) : digitsVal (natDec' n) = n :=
  (natDecAux_spec _ _ (Nat.lt_succ_self n)).1

theorem isDig_natDec' (n : Nat) : ∀ c ∈ natDec' n, isDig c = true :=
  (natDecAux_spec _ _ (Nat.lt_succ_self n)).2.1

theorem natDec'_ne_nil (n : Nat) : natDec' n ≠ [] :=
  (natDecAux_spec _ _ (Nat.lt_succ_self n)).2.2

theorem dropWhile_eq_self_of_head (p : Char → Bool) (l : List Char)
    (h : ∀ c ∈ l, p c = false) : List.dropWhile p l = l := by
  cases l with
  | nil => rfl
  | cons c t =>
    rw [List.dropWhile_cons, if_neg]
    simp [h c (List.mem_cons_self c t)]

theorem pyStrip_eq_self (l : List Char) (h : ∀ c ∈ l, isPySpace c = false) :
    pyStrip l = l := by
  unfold pyStrip
  rw [dropWhile_eq_self_of_head _ _ h, dropWhile_eq_self_of_head, List.reverse_reverse]
  intro c hc
  exact h c (List.mem_reverse.mp hc)

theorem isPySpace_false_of_isDig {c : Char} (h : isDig c = true) :
    isPySpace c = false := by
  simp only [isPySpace, Bool.or_eq_false_iff, decide_eq_false_iff_not]
  refine ⟨⟨⟨⟨⟨?_, ?_⟩, ?_⟩, ?_⟩, ?_⟩, ?_⟩ <;> exact fun e => absurd (e ▸ h) (by decide)

theorem ne_plus_of_isDig {c : Char} (h : isDig c = true) : (c = '+') = False := by
  simp only [eq_iff_iff, iff_false]
  exact fun e => absurd (e ▸ h) (by decide)

theorem ne_minus_of_isDig {c : Char} (h : isDig c = true) : (c = '-') = False := by
  simp only [eq_iff_iff, iff_false]
  exact fun e => absurd (e ▸ h) (by decide)

theorem natPart_natDec' (n : Nat) : natPart (natDec' n) = some n := by
  rw [natPart, if_neg (natDec'_ne_nil n), if_pos, digitsVal_natDec']
  exact List.all_eq_true.mpr (isDig_natDec' n)

/-- The integer literal parser inverts decimal rendering: parsing the
rendering of any integer (sign included) recovers that integer. -/
theorem intLit?_intDecL (z : Int) : intLit? (String.mk (intDecL z)) = some z := by
  have htl : (String.mk (intDecL z)).toList = intDecL z := rfl
  by_cases hz : z < 0
  · have hstrip : pyStrip ('-' :: natDec' z.natAbs) = '-' :: natDec' z.natAbs := by
      apply pyStrip_eq_self
      intro c hc
      rcases List.mem_cons.mp hc with rfl | hc
      · decide
      · exact isPySpace_false_of_isDig (isDig_natDec' _ c hc)
    rw [intLit?, htl, intDecL, if_pos hz, hstrip]
    simp only [natPart_natDec']
    simp only [show ('-' = '+') = False by simp, show ('-' = '-') = True by simp,
      if_false, if_true]
    exact congrArg some (show -Int.ofNat z.natAbs = z by rw [Int.ofNat_eq_natCast]; omega)
  · obtain ⟨c, rest, hcr⟩ := List.exists_cons_of_ne_nil (natDec'_ne_nil z.natAbs)
    have hdig : ∀ d ∈ natDec' z.natAbs, isDig d = true := isDig_natDec' _
    have hstrip : pyStrip (natDec' z.natAbs) = natDec' z.natAbs :=
      pyStrip_eq_self _ fun d hd => isPySpace_false_of_isDig (hdig d hd)
    have hdc : isDig c = true := hdig c (hcr ▸ List.mem_cons_self c rest)
    have hnp : ¬(c = '+') := fun e => absurd (e ▸ hdc) (by decide)
    have hnm : ¬(c = '-') := fun e => absurd (e ▸ hdc) (by decide)
    rw [intLit?, htl, intDecL, if_neg hz, hstrip, hcr]
    simp only [hnp, hnm, if_false, ← hcr, natPart_natDec']
    exact congrArg some (show Int.ofNat z.natAbs = z by rw [Int.ofNat_eq_natCast]; omega)

theorem pyOrInt_some (n : Int) : pyOrInt (some n) = n := by
  by_cases h : n = 0 <;> simp [pyOrInt, h]

theorem intDecL_eq (z : Int) :
    intDecL z = (if z < 0 then ['-'] else []) ++ natDec' z.natAbs := by
  by_cases h : z < 0 <;> simp [intDecL, h]

theorem natDec'_lt_ten {k : Nat} (h : k < 10) : natDec' k = [digitChar k] := by
  simp [natDec', natDecAux, h]

theorem ne_dot_of_isDig {c : Char} (h : isDig c = true) : ¬c = '.' :=
  fun e => absurd (e ▸ h) (by decide)

theorem roundHalfEven_low {x : ℚ} {f : Int} (h1 : ⌊x⌋ = f)
    (h2 : x - (f : ℚ) < 1 / 2) : roundHalfEven x = f := by
  simp only [roundHalfEven, h1]
  rw [if_pos h2]

theorem fix1_of_nonneg {q : ℚ} (hq : 0 ≤ q) :
    fix1 q = natDec' ((roundHalfEven (q * 10)).toNat / 10) ++ ['.'] ++
      natDec' ((roundHalfEven (q * 10)).toNat % 10) := by
  simp only [fix1, abs_of_nonneg hq]
  rw [if_neg (not_lt.mpr hq)]
  simp

theorem pyOrFloat_zero : pyOrFloat Option.none = 0 ∧ pyOrFloat (some 0) = 0 := by
  constructor <;> simp [pyOrFloat]

theorem roundHalfEven_zero : roundHalfEven ((0 : ℚ) * 10) = 0 := by
  apply roundHalfEven_low <;> norm_num

theorem float_format_zero :
    Float.format Option.none = "0.0" ∧ Float.format (some 0) = "0.0" := by
  have h : String.mk (fix1 (0 : ℚ)) = "0.0" := by
    rw [fix1_of_nonneg le_rfl, roundHalfEven_zero]
    decide
  exact ⟨by rw [Float.format, pyOrFloat_zero.1]; exact h,
    by rw [Float.format, pyOrFloat_zero.2]; exact h⟩

theorem float_format_pi : Float.format (some (314159 / 100000)) = "3.1" := by
  have hv : pyOrFloat (some ((314159 : ℚ) / 100000)) = (314159 : ℚ) / 100000 := by
    simp [pyOrFloat]
  have hfl : ⌊(314159 : ℚ) / 100000 * 10⌋ = 31 := by
    rw [Int.floor_eq_iff]
    norm_num
  have hr : roundHalfEven ((314159 : ℚ) / 100000 * 10) = 31 :=
    roundHalfEven_low hfl (by norm_num)
  rw [Float.format, hv, fix1_of_nonneg (by norm_num), hr]
  decide

example : PaddedInt.format 3 (some 5) = "005" := by decide
example : PaddedInt.format 3 (some 1234) = "1234" := by decide
example : PaddedInt.format 5 (some (-42)) = "-0042" := by decide
example : ScaledInt.format 1000 "k" (some 2500) = "2k" := by decide
example : Float.parse "nan-text" = 0 := by decide
example : String.format (PyVal.int 0) = "" := by decide
example : Boolean.format (PyVal.int 1) = "True" := by decide
example : Boolean.parse "yes" = true := by decide

example : Integer.parse "42" = 42 := by decide
example : Integer.parse "" = 0 := by decide
example : Integer.parse "abc" = 0 := by decide
example : Integer.parse " -17 " = -17 := by decide
example : Integer.format (some 7) = "7" := by decide
example : Integer.format Option.none = "0" := by decide

/-- C1: For every concrete variant (Integer, PaddedInt, ScaledInt, Id,
Float, String, Boolean) and for arbitrary input — including empty
strings, whitespace, unicode, non-numeric text, and absent/default
values — both `format` and `parse` return a value and never raise an
exception.  Formalised at the exception level: every `parse` (and the
one `format` containing a fallible primitive, `ScaledInt.format` under
its constructor invariant `0 < unit`) evaluates to `Except.ok` of its
pure result, and the remaining `format`s, built from total primitives
only, return a value for every argument. -/
theorem spec_c1_total_no_raise (s : String) (vi : Option Int) (vq : Option ℚ)
    (w x : PyVal) (d : Nat) (u : Int) (sfx : String) (hu : 0 < u) :
    Integer.parseE s = Except.ok (Integer.parse s)
    ∧ PaddedInt.parseE s = Except.ok (PaddedInt.parse s)
    ∧ ScaledInt.parseE s = Except.ok (ScaledInt.parse s)
    ∧ Id.parseE s = Except.ok (Id.parse s)
    ∧ Float.parseE s = Except.ok (Float.parse s)
    ∧ String.parse s = s
    ∧ (Boolean.parse s = true ∨ Boolean.parse s = false)
    ∧ ScaledInt.formatE u sfx vi = Except.ok (ScaledInt.format u sfx vi)
    ∧ (∃ r, Integer.format vi = r)
    ∧ (∃ r, PaddedInt.format d vi = r)
    ∧ (∃ r, Id.format vi = r)
    ∧ (∃ r, Float.format vq = r)
    ∧ (∃ r, String.format w = r)
    ∧ (∃ r, Boolean.format x = r) := by
  have hint : Integer.parseE s = Except.ok (Integer.parse s) := by
    rw [Integer.parseE, Integer.parse, pyIntE]
    cases intLit? s <;> rfl
  refine ⟨hint, hint, hint, hint, ?_, rfl, ?_, ?_, ⟨_, rfl⟩, ⟨_, rfl⟩, ⟨_, rfl⟩,
    ⟨_, rfl⟩, ⟨_, rfl⟩, ⟨_, rfl⟩⟩
  · rw [Float.parseE, Float.parse, pyFloatE]
    cases floatLit? s <;> rfl
  · cases Boolean.parse s
    · exact Or.inr rfl
    · exact Or.inl rfl
  · rw [ScaledInt.formatE, ScaledInt.format, intFloorDivE,
      if_neg (by omega : ¬u = 0)]

/-- Witness for C1 at concrete inputs, discharging the `0 < unit`
constructor hypothesis. -/
theorem spec_c1_total_no_raise_witness :
    Integer.parseE " 7 " = Except.ok (Integer.parse " 7 ")
    ∧ ScaledInt.formatE 1000 "k" (some 2500) =
        Except.ok (ScaledInt.format 1000 "k" (some 2500)) :=
  ⟨(spec_c1_total_no_raise " 7 " (some 2500) Option.none PyVal.none PyVal.none
      3 1000 "k" (by decide)).1,
    (spec_c1_total_no_raise " 7 " (some 2500) Option.none PyVal.none PyVal.none
      3 1000 "k" (by decide)).2.2.2.2.2.2.2.1⟩

/-- C2: `Integer.parse` attempts a decimal integer parse of its text
argument and returns 0 on any failure, with no exception propagating;
in particular `Integer.parse("") = 0`, `Integer.parse("abc") = 0`, and
`Integer.parse("42") = 42`. -/
theorem spec_c2_integer_parse_fallback (s : String) :
    ((∃ n, pyIntE s = Except.ok n ∧ Integer.parse s = n)
      ∨ (pyIntE s = Except.error PyErr.valueError ∧ Integer.parse s = 0))
    ∧ Integer.parse "" = 0
    ∧ Integer.parse "abc" = 0
    ∧ Integer.parse "42" = 42 := by
  refine ⟨?_, by decide, by decide, by decide⟩
  rw [pyIntE, Integer.parse]
  cases h : intLit? s
  · exact Or.inr ⟨rfl, rfl⟩
  · exact Or.inl ⟨_, rfl, rfl⟩

/-- C3: for every integer `n`, `Integer.parse (Integer.format n) = n`
(the Integer variant's format/parse pair is round-trip safe);
additionally `Integer.format` of an absent/None-equivalent value is
`"0"` and `Integer.format 7` is `"7"`. -/
theorem spec_c3_integer_roundtrip (n : Int) :
    Integer.parse (Integer.format (some n)) = n
    ∧ Integer.format Option.none = "0"
    ∧ Integer.format (some 7) = "7" := by
  refine ⟨?_, by decide, by decide⟩
  rw [Integer.format, pyOrInt_some, Integer.parse, intLit?_intDecL]

/-- C4: for a PaddedInt constructed with a positive digits count,
`format` treats absent/zero values as 0 and renders the value as a
decimal integer left-padded with `'0'` to exactly `digits` width (the
fill sits between the sign and the digits), while values whose decimal
rendering exceeds `digits` characters are rendered at full width
unpadded; e.g. `PaddedInt(digits=3).format(5) = "005"` and
`PaddedInt(digits=3).format(1234) = "1234"`. -/
theorem spec_c4_padded_format (digits : Nat) (v : Option Int) (_hd : 0 < digits) :
    PaddedInt.format digits Option.none = PaddedInt.format digits (some 0)
    ∧ PaddedInt.format digits v =
        (if digits ≤ (intDecL (pyOrInt v)).length
         then String.mk (intDecL (pyOrInt v))
         else String.mk ((if pyOrInt v < 0 then ['-'] else []) ++
           List.replicate (digits - (intDecL (pyOrInt v)).length) '0' ++
           natDec' (pyOrInt v).natAbs))
    ∧ (PaddedInt.format digits v).length = max digits (intDecL (pyOrInt v)).length
    ∧ PaddedInt.format 3 (some 5) = "005"
    ∧ PaddedInt.format 3 (some 1234) = "1234" := by
  have hlen : (intDecL (pyOrInt v)).length =
      (if pyOrInt v < 0 then ['-'] else []).length +
        (natDec' (pyOrInt v).natAbs).length := by
    rw [intDecL_eq, List.length_append]
  refine ⟨by rfl, ?_, ?_, by decide, by decide⟩
  · by_cases hc : digits ≤ (intDecL (pyOrInt v)).length
    · rw [if_pos hc, PaddedInt.format, zeroPad, intDecL_eq]
      have h0 : digits - ((if pyOrInt v < 0 then ['-'] else []).length +
          (natDec' (pyOrInt v).natAbs).length) = 0 := by omega
      rw [h0]
      simp
    · rw [if_neg hc, PaddedInt.format, zeroPad]
      have h0 : digits - ((if pyOrInt v < 0 then ['-'] else []).length +
          (natDec' (pyOrInt v).natAbs).length) =
          digits - (intDecL (pyOrInt v)).length := by omega
      rw [h0]
  · rw [PaddedInt.format, zeroPad]
    show (_ ++ _ ++ _ : List Char).length = _
    simp only [List.length_append, List.length_replicate]
    omega

/-- Witness for C4 at `digits = 3`, `value = 5`. -/
theorem spec_c4_padded_format_witness :
    PaddedInt.format 3 (some 5) = "005" ∧ PaddedInt.format 3 (some 1234) = "1234" :=
  ⟨(spec_c4_padded_format 3 (some 5) (by decide)).2.2.2.1,
    (spec_c4_padded_format 3 (some 5) (by decide)).2.2.2.2⟩

/-- C5: for a ScaledInt constructed with `unit > 0` and a suffix,
`format` treats absent/zero values as 0, computes the integer floor
division of the value by `unit`, and renders that quotient in decimal
immediately followed by the suffix with no separator; e.g.
`ScaledInt(unit=1000, suffix="k").format(2500) = "2k"`. -/
theorem spec_c5_scaled_format (u : Int) (sfx : String) (v : Option Int)
    (hu : 0 < u) :
    ScaledInt.format u sfx Option.none = ScaledInt.format u sfx (some 0)
    ∧ ScaledInt.format u sfx v =
        String.mk (intDecL ⌊((pyOrInt v : ℚ)) / ((u : ℚ))⌋) ++ sfx
    ∧ ScaledInt.format 1000 "k" (some 2500) = "2k" := by
  refine ⟨by rfl, ?_, by decide⟩
  have hfd : Int.fdiv (pyOrInt v) u = ⌊((pyOrInt v : ℚ)) / ((u : ℚ))⌋ := by
    rw [Int.fdiv_eq_ediv _ hu.le]
    have hu' : ((u.toNat : ℤ)) = u := Int.toNat_of_nonneg hu.le
    have h2 := Rat.floor_intCast_div_natCast (pyOrInt v) u.toNat
    rw [show (((u.toNat : ℕ)) : ℚ) = ((u : ℚ)) by rw [← hu']; push_cast; rfl] at h2
    rw [hu'] at h2
    exact h2.symm
  rw [ScaledInt.format, hfd]

/-- Witness for C5 at `unit = 1000`, `suffix = "k"`, `value = 2500`. -/
theorem spec_c5_scaled_format_witness :
    ScaledInt.format 1000 "k" (some 2500) = "2k" :=
  (spec_c5_scaled_format 1000 "k" (some 2500) (by decide)).2.2

/-- C6: for every input, `PaddedInt.parse`, `ScaledInt.parse` and
`Id.parse` each return exactly the same result as `Integer.parse`, and
`Id.format` returns exactly the same result as `Integer.format` (the
extending variants change only what the spec says they change).  In the
embedding, as in the source, these methods are inherited unchanged, so
the equalities are definitional. -/
theorem spec_c6_inherited_unchanged (s : String) (v : Option Int) :
    PaddedInt.parse s = Integer.parse s
    ∧ ScaledInt.parse s = Integer.parse s
    ∧ Id.parse s = Integer.parse s
    ∧ Id.format v = Integer.format v :=
  ⟨rfl, rfl, rfl, rfl⟩

/-- C7: `String.parse` is the identity: for every input text `t`,
`String.parse t = t` with no transformation and no failure mode; and
`String.format` of an absent/None-equivalent value is the empty string
while `String.parse "hello" = "hello"`. -/
theorem spec_c7_string_parse_id (t : String) :
    String.parse t = t
    ∧ String.format PyVal.none = ""
    ∧ String.parse "hello" = "hello" :=
  ⟨rfl, rfl, rfl⟩

/-- C8: `Float.format` treats absent/zero values as 0.0 and renders the
value with exactly one digit after the decimal point (the output ends in
a decimal point followed by one digit, and no other decimal point
occurs), and `Float.parse` attempts a floating-point parse of its text
and returns 0.0 on failure; e.g. `Float.format(3.14159) = "3.1"` and
`Float.parse("nan-text") = 0.0`. -/
theorem spec_c8_float_format_parse (v : Option ℚ) (s : String) :
    Float.format Option.none = "0.0"
    ∧ Float.format (some 0) = "0.0"
    ∧ (∃ pre k, k < 10 ∧ Float.format v = String.mk (pre ++ ['.', digitChar k])
        ∧ ∀ c ∈ pre, ¬c = '.')
    ∧ ((∃ q, pyFloatE s = Except.ok q ∧ Float.parse s = q)
        ∨ (pyFloatE s = Except.error PyErr.valueError ∧ Float.parse s = 0))
    ∧ Float.format (some (314159 / 100000)) = "3.1"
    ∧ Float.parse "nan-text" = 0 := by
  refine ⟨float_format_zero.1, float_format_zero.2, ?_, ?_, float_format_pi,
    by decide⟩
  · set q := pyOrFloat v with hq
    set m := (roundHalfEven (|q| * 10)).toNat with hm
    refine ⟨(if q < 0 then ['-'] else []) ++ natDec' (m / 10), m % 10,
      Nat.mod_lt _ (by omega), ?_, ?_⟩
    · rw [Float.format, fix1, natDec'_lt_ten (Nat.mod_lt _ (by omega))]
      simp
    · intro c hc
      rcases List.mem_append.mp hc with h | h
      · intro e
        subst e
        revert h
        split <;> decide
      · exact ne_dot_of_isDig (isDig_natDec' _ c h)
  · rw [pyFloatE, Float.parse]
    cases h : floatLit? s
    · exact Or.inr ⟨rfl, rfl⟩
    · exact Or.inl ⟨_, rfl, rfl⟩

/-- C9: `Boolean.format` coerces its argument to boolean truthiness and
renders it as the literal text `"True"` when truthy and `"False"` when
falsy — for every value the result is exactly one of these two strings —
and `Boolean.format 1` is the truthy textual form. -/
theorem spec_c9_boolean_format (v : PyVal) :
    (Boolean.format v = "True" ∨ Boolean.format v = "False")
    ∧ (Boolean.format v = "True" ↔ v.truthy = true)
    ∧ (Boolean.format v = "False" ↔ v.truthy = false)
    ∧ Boolean.format (PyVal.int 1) = "True" := by
  cases h : v.truthy <;>
    simp [Boolean.format, h] <;> decide

/-- C10 (implicit): `String.format` returns the empty string for every
falsy value — not only absent/null or empty text but also the integer 0,
the float 0.0, and boolean False — so a present numeric zero stored in a
String-typed field formats as `""` rather than `"0"`. -/
theorem spec_c10_string_format_falsy (v : PyVal) (h : v.truthy = false) :
    String.format v = ""
    ∧ String.format (PyVal.int 0) = ""
    ∧ String.format (PyVal.float 0) = ""
    ∧ String.format (PyVal.bool false) = ""
    ∧ String.format (PyVal.str "") = "" := by
  refine ⟨?_, ?_, ?_, ?_, ?_⟩ <;> try rw [String.format]
  · rw [h]
    rfl
  all_goals rfl

/-- Witness for C10 at the falsy value `0` (a present integer zero). -/
theorem spec_c10_string_format_falsy_witness :
    String.format (PyVal.int 0) = "" :=
  (spec_c10_string_format_falsy (PyVal.int 0) (by decide)).1

end DbTypes
